import Mathlib

/-!
# Per-frame pipeline of `main.cpp` (capture -> convert -> present)

A shallow embedding of `ProcessAndRender` (src/main.cpp, lines 260-398) and of
the loop in `main` that calls it.

* The globals the function reads and writes (`g_fenceValue`, `g_frameIndex`) and
  its three function-local statics (`g_sharedTex11`, `g_sharedTex12`,
  `g_hShared`) form the `State`.
* Every value the function obtains from Media Foundation, D3D11, D3D12 or DXGI
  during one call is a field of `Env`: the function is deterministic in
  `State × Env`.
* Every call the function makes on a queue, a device or the swap chain is
  recorded, in program order, as a `Cmd`; the two command lists it records are
  carried by the `ExecuteCommandLists` that submits them.
* COM pointers are `Option Nat` (`none` is the null pointer, `some n` the object
  with identity `n`).
* `g_fenceValue` is a `UINT64`: the increment is taken modulo `2 ^ 64`.
* Calls whose `HRESULT` the function does not test (`GetBufferByIndex`,
  `GetResource`, the `As` of line 297, `Signal`, `Wait`, `Present`) have no
  failure branch in the function and none here.
-/

namespace ZeroCopy

/-! ## Configuration (lines 52-54) -/

def WIDTH : Nat := 1920
def HEIGHT : Nat := 1080
def BUFFER_COUNT : Nat := 2

/-- The number of values of a `UINT64`. -/
def UINT64_SIZE : Nat := 2 ^ 64

/-! ## Data model -/

/-- The `D3D12_RESOURCE_STATES` values that `ProcessAndRender` names. -/
inductive ResourceState where
  | COMMON
  | VIDEO_PROCESS_READ
  | VIDEO_PROCESS_WRITE
  | COPY_SOURCE
  | COPY_DEST
  | PRESENT
  deriving DecidableEq

/-- The D3D12 resources a barrier or a copy of `ProcessAndRender` can name:
`g_sharedTex12.Get()` (the pointer value it held, null included),
`g_processedTexture.Get()` and `g_renderTargets[i].Get()`. -/
inductive Resource where
  | sharedTex12 (ptr : Option Nat)
  | processedTexture
  | renderTargets (i : Nat)
  deriving DecidableEq

/-- One `D3D12_RESOURCE_BARRIER` of type TRANSITION (all subresources). -/
structure Barrier where
  pResource : Resource
  StateBefore : ResourceState
  StateAfter : ResourceState
  deriving DecidableEq

/-- A command recorded into a command list between `Reset` and `Close`. -/
inductive ListCmd where
  | ResourceBarrier (barriers : List Barrier)
  | ProcessFrames (output : Resource) (input : Resource)
  | CopyResource (dst : Resource) (src : Resource)
  deriving DecidableEq

/-- The two D3D12 command queues: `g_videoQueue` and `g_directQueue`. -/
inductive Queue where
  | video
  | direct
  deriving DecidableEq

/-- The calls `ProcessAndRender` makes, as they appear in its trace. -/
inductive Cmd where
  | GetFrameLatencyWaitableObject
  | WaitForSingleObjectEx (dwMilliseconds : Nat) (bAlertable : Bool)
  | ReadSample
  | GetBufferByIndex
  | CreateTexture2D
  | GetSharedHandle
  | OpenSharedHandle (h : Option Nat)
  | D3D11CopyResource (dst : Option Nat) (src : Nat)
  | D3D11Flush
  | ExecuteCommandLists (q : Queue) (commands : List ListCmd)
  | Signal (q : Queue) (value : Nat)
  | Wait (q : Queue) (value : Nat)
  | Present (SyncInterval : Nat) (Flags : Nat)
  | GetCurrentBackBufferIndex
  deriving DecidableEq

/-- What `WaitForSingleObjectEx(waitableObj, 1000, true)` can return. -/
inductive WaitResult where
  | WAIT_OBJECT_0
  | WAIT_TIMEOUT
  | WAIT_IO_COMPLETION
  | WAIT_FAILED
  deriving DecidableEq

/-- What `ReadSample` delivers: a failing `HRESULT`, success with a null
`pSample`, or a sample. For a sample, `dxgi` is the D3D11 texture behind buffer 0
when that buffer is an `IMFDXGIBuffer`, and `none` when `pBuffer.As(&dxgiBuffer)`
fails. -/
inductive ReadResult where
  | failed
  | noSample
  | sample (dxgi : Option Nat)
  deriving DecidableEq

/-- The answers of the outside world during one call of `ProcessAndRender`.
`createTexture2D` and `openSharedHandle` are `none` when the call fails and the
created object otherwise; `sharedHandle` is the value `GetSharedHandle` leaves in
`g_hShared`; `backBufferIndex` is what `GetCurrentBackBufferIndex` returns after
the present. Fields for calls the function does not reach are not read. -/
structure Env where
  gate : WaitResult
  read : ReadResult
  createTexture2D : Option Nat
  sharedHandle : Option Nat
  openSharedHandle : Option Nat
  backBufferIndex : Nat
  deriving DecidableEq

/-- The variables that survive a call of `ProcessAndRender`: the globals of
lines 81-82 and the statics of lines 284-286. -/
structure State where
  g_fenceValue : Nat
  g_frameIndex : Nat
  g_sharedTex11 : Option Nat
  g_sharedTex12 : Option Nat
  g_hShared : Option Nat
  deriving DecidableEq

/-- The state when the loop of `main` starts: `g_fenceValue = 0` (line 81), the
statics null (lines 284-286) and `g_frameIndex` the index the swap chain reported
in `InitD3D12` (line 135). -/
def initState (backBufferIndex : Nat) : State :=
  { g_fenceValue := 0
    g_frameIndex := backBufferIndex
    g_sharedTex11 := none
    g_sharedTex12 := none
    g_hShared := none }

/-! ## `ProcessAndRender` -/

/-- Lines 263-271: the latency-gate wait, whose result is discarded, and the
`ReadSample` call. -/
def acquireCmds : List Cmd :=
  [Cmd.GetFrameLatencyWaitableObject, Cmd.WaitForSingleObjectEx 1000 true, Cmd.ReadSample]

/-- Lines 288-301, the cached interop block. The result is the state after the
block, the calls made, and whether control reaches line 304 (`false` is one of
the two `return`s inside the block). -/
def interop (s : State) (e : Env) : State × List Cmd × Bool :=
  match s.g_sharedTex11 with
  | some _ => (s, [], true)
  | none =>
    match e.createTexture2D with
    | none => (s, [Cmd.CreateTexture2D], false)
    | some t11 =>
      let s1 := { s with g_sharedTex11 := some t11, g_hShared := e.sharedHandle }
      let calls := [Cmd.CreateTexture2D, Cmd.GetSharedHandle, Cmd.OpenSharedHandle e.sharedHandle]
      match e.openSharedHandle with
      | none => ({ s1 with g_sharedTex12 := none }, calls, false)
      | some t12 => ({ s1 with g_sharedTex12 := some t12 }, calls, true)

/-- Lines 308-345: what is recorded into `g_videoCommandList`. -/
def videoCommands (tex12 : Option Nat) : List ListCmd :=
  [ ListCmd.ResourceBarrier
      [ ⟨Resource.sharedTex12 tex12, ResourceState.COMMON, ResourceState.VIDEO_PROCESS_READ⟩,
        ⟨Resource.processedTexture, ResourceState.COMMON, ResourceState.VIDEO_PROCESS_WRITE⟩ ],
    ListCmd.ProcessFrames Resource.processedTexture (Resource.sharedTex12 tex12),
    ListCmd.ResourceBarrier
      [ ⟨Resource.sharedTex12 tex12, ResourceState.VIDEO_PROCESS_READ, ResourceState.COMMON⟩,
        ⟨Resource.processedTexture, ResourceState.VIDEO_PROCESS_WRITE, ResourceState.COMMON⟩ ] ]

/-- Lines 356-385: what is recorded into `g_directCommandList`. -/
def directCommands (frameIndex : Nat) : List ListCmd :=
  [ ListCmd.ResourceBarrier
      [ ⟨Resource.processedTexture, ResourceState.COMMON, ResourceState.COPY_SOURCE⟩,
        ⟨Resource.renderTargets frameIndex, ResourceState.PRESENT, ResourceState.COPY_DEST⟩ ],
    ListCmd.CopyResource (Resource.renderTargets frameIndex) Resource.processedTexture,
    ListCmd.ResourceBarrier
      [ ⟨Resource.processedTexture, ResourceState.COPY_SOURCE, ResourceState.COMMON⟩,
        ⟨Resource.renderTargets frameIndex, ResourceState.COPY_DEST, ResourceState.PRESENT⟩ ] ]

/-- Lines 304-397: the part of `ProcessAndRender` after the interop block, for
the captured texture `tex`. -/
def convertAndPresent (s : State) (e : Env) (tex : Nat) : State × List Cmd :=
  let fence := (s.g_fenceValue + 1) % UINT64_SIZE
  ({ s with g_fenceValue := fence, g_frameIndex := e.backBufferIndex },
   [ Cmd.D3D11CopyResource s.g_sharedTex11 tex,
     Cmd.D3D11Flush,
     Cmd.ExecuteCommandLists Queue.video (videoCommands s.g_sharedTex12),
     Cmd.Signal Queue.video fence,
     Cmd.Wait Queue.direct fence,
     Cmd.ExecuteCommandLists Queue.direct (directCommands s.g_frameIndex),
     Cmd.Present 0 0,
     Cmd.GetCurrentBackBufferIndex ])

/-- One call of `ProcessAndRender` (lines 260-398): the state it leaves and the
calls it makes. -/
def ProcessAndRender (s : State) (e : Env) : State × List Cmd :=
  match e.read with
  | ReadResult.failed => (s, acquireCmds)
  | ReadResult.noSample => (s, acquireCmds)
  | ReadResult.sample none => (s, acquireCmds ++ [Cmd.GetBufferByIndex])
  | ReadResult.sample (some tex) =>
    match interop s e with
    | (s1, calls, false) => (s1, acquireCmds ++ [Cmd.GetBufferByIndex] ++ calls)
    | (s1, calls, true) =>
      let r := convertAndPresent s1 e tex
      (r.1, acquireCmds ++ [Cmd.GetBufferByIndex] ++ calls ++ r.2)

/-- The `else` branch of the loop of `main` (line 428) taken once per element of
the list: the final state and the trace of each call. -/
def run (s : State) : List Env → State × List (List Cmd)
  | [] => (s, [])
  | e :: es =>
    let r := ProcessAndRender s e
    let rest := run r.1 es
    (rest.1, r.2 :: rest.2)

/-! ## Observations on traces -/

/-- A submission of a command list to the queue `q`. -/
def isSubmitOn (q : Queue) : Cmd → Bool
  | Cmd.ExecuteCommandLists q1 _ => decide (q1 = q)
  | _ => false

/-- A fence signal from the queue `q`. -/
def isSignalOn (q : Queue) : Cmd → Bool
  | Cmd.Signal q1 _ => decide (q1 = q)
  | _ => false

/-- A fence wait enqueued on the queue `q`. -/
def isWaitOn (q : Queue) : Cmd → Bool
  | Cmd.Wait q1 _ => decide (q1 = q)
  | _ => false

def isSubmit (c : Cmd) : Bool := isSubmitOn Queue.video c || isSubmitOn Queue.direct c
def isSignal (c : Cmd) : Bool := isSignalOn Queue.video c || isSignalOn Queue.direct c
def isQueueWait (c : Cmd) : Bool := isWaitOn Queue.video c || isWaitOn Queue.direct c

def isPresent : Cmd → Bool
  | Cmd.Present _ _ => true
  | _ => false

def isCreateTexture2D : Cmd → Bool
  | Cmd.CreateTexture2D => true
  | _ => false

def isOpenSharedHandle : Cmd → Bool
  | Cmd.OpenSharedHandle _ => true
  | _ => false

/-- The queue-level calls of a trace in program order: submissions, fence
signals, fence waits and presents. -/
def queueOps (t : List Cmd) : List Cmd :=
  t.filter (fun c => isSubmit c || isSignal c || isQueueWait c || isPresent c)

/-- The fence values the presentation queue is told to wait for, in order. -/
def waitValues (t : List Cmd) : List Nat :=
  t.filterMap (fun c => match c with
    | Cmd.Wait Queue.direct v => some v
    | _ => none)

/-- The number of `Present` calls in the traces of a run. -/
def presentCalls : List (List Cmd) → Nat
  | [] => 0
  | t :: ts => t.countP isPresent + presentCalls ts

/-- The presentation-queue wait values of a run, in order. -/
def waitValuesRun : List (List Cmd) → List Nat
  | [] => []
  | t :: ts => waitValues t ++ waitValuesRun ts

/-- An iteration is completed when it reached the present call, and skipped
otherwise. -/
def completed (t : List Cmd) : Bool := t.any isPresent

/-- The five `return` statements of `ProcessAndRender` before line 304. -/
inductive SkipCause where
  | readSampleFailed
  | noSample
  | notDxgiBuffer
  | createTexture2DFailed
  | openSharedHandleFailed
  deriving DecidableEq

/-- Which early `return` (lines 272, 273, 278, 294, 300) the call takes, if any. -/
def skipCause (s : State) (e : Env) : Option SkipCause :=
  match e.read with
  | ReadResult.failed => some SkipCause.readSampleFailed
  | ReadResult.noSample => some SkipCause.noSample
  | ReadResult.sample none => some SkipCause.notDxgiBuffer
  | ReadResult.sample (some _) =>
    match s.g_sharedTex11 with
    | some _ => none
    | none =>
      match e.createTexture2D with
      | none => some SkipCause.createTexture2DFailed
      | some _ =>
        match e.openSharedHandle with
        | none => some SkipCause.openSharedHandleFailed
        | some _ => none

/-- The part of the state a skipped iteration is said to preserve. -/
def sameCountersAndCache (a b : State) : Prop :=
  a.g_fenceValue = b.g_fenceValue ∧ a.g_frameIndex = b.g_frameIndex ∧
  a.g_sharedTex11 = b.g_sharedTex11 ∧ a.g_sharedTex12 = b.g_sharedTex12 ∧
  a.g_hShared = b.g_hShared

instance (a b : State) : Decidable (sameCountersAndCache a b) := by
  unfold sameCountersAndCache; infer_instance

/-! ## Concrete inputs used below -/

/-- An iteration in which a frame arrives in a DXGI buffer and both halves of
the import can be created. -/
def frameEnv (backBufferIndex : Nat) : Env :=
  { gate := WaitResult.WAIT_OBJECT_0
    read := ReadResult.sample (some 7)
    createTexture2D := some 11
    sharedHandle := some 5
    openSharedHandle := some 12
    backBufferIndex := backBufferIndex }

/-- An iteration in which a frame arrives, `CreateTexture2D` succeeds and
`OpenSharedHandle` fails. -/
def openFailsEnv : Env :=
  { frameEnv 0 with openSharedHandle := none }

/-- An iteration in which `ReadSample` returns no sample. -/
def noFrameEnv : Env :=
  { frameEnv 0 with read := ReadResult.noSample }

/-! ## All-or-nothing submission -/

/-- No queue submission, no signal, no queue wait and no present. -/
def noQueueWork (t : List Cmd) : Prop :=
  t.countP isSubmit = 0 ∧ t.countP isSignal = 0 ∧ t.countP isQueueWait = 0 ∧
  t.countP isPresent = 0

/-- Exactly one conversion-queue submission, one signal (from the conversion
queue), one queue wait (on the presentation queue), one presentation-queue
submission and one present. -/
def oneOfEach (t : List Cmd) : Prop :=
  t.countP (isSubmitOn Queue.video) = 1 ∧
  t.countP isSignal = 1 ∧ t.countP (isSignalOn Queue.video) = 1 ∧
  t.countP isQueueWait = 1 ∧ t.countP (isWaitOn Queue.direct) = 1 ∧
  t.countP (isSubmitOn Queue.direct) = 1 ∧
  t.countP isPresent = 1

/-- The all-or-nothing property with the counter increasing by exactly 1 as a
natural number. -/
def AllOrNothingExact (s : State) (e : Env) : Prop :=
  (noQueueWork (ProcessAndRender s e).2 ∧
    (ProcessAndRender s e).1.g_fenceValue = s.g_fenceValue) ∨
  (oneOfEach (ProcessAndRender s e).2 ∧
    (ProcessAndRender s e).1.g_fenceValue = s.g_fenceValue + 1)

/-- A state whose completion counter holds the largest `UINT64`. -/
def maxFenceState : State :=
  { initState 0 with g_fenceValue := 18446744073709551615 }

/-- A run of `2 ^ 64` iterations, each of which acquires a frame. -/
def wrapRun : List Env := List.replicate UINT64_SIZE (frameEnv 0)

/-! ## Resource-state tracking -/

/-- The logical state tracked for every resource. -/
def Tracker : Type := Resource → ResourceState

/-- The tracked states at a frame boundary: ring surfaces in PRESENT, the
shared import and the intermediate surface in COMMON. -/
def restTracker : Tracker := fun r =>
  match r with
  | Resource.renderTargets _ => ResourceState.PRESENT
  | _ => ResourceState.COMMON

/-- Apply one transition barrier: it is rejected when its `StateBefore` is not
the tracked state of its resource. -/
def applyBarrier (tr : Tracker) (b : Barrier) : Option Tracker :=
  if tr b.pResource = b.StateBefore then
    some (fun r => if r = b.pResource then b.StateAfter else tr r)
  else none

def applyBarriers (tr : Tracker) : List Barrier → Option Tracker
  | [] => some tr
  | b :: bs =>
    match applyBarrier tr b with
    | none => none
    | some tr1 => applyBarriers tr1 bs

/-- Track the barriers of one command list. -/
def trackList (tr : Tracker) : List ListCmd → Option Tracker
  | [] => some tr
  | ListCmd.ResourceBarrier bs :: rest =>
    match applyBarriers tr bs with
    | none => none
    | some tr1 => trackList tr1 rest
  | _ :: rest => trackList tr rest

/-- Track the command lists of a trace in submission order. -/
def trackTrace (tr : Tracker) : List Cmd → Option Tracker
  | [] => some tr
  | Cmd.ExecuteCommandLists _ l :: rest =>
    match trackList tr l with
    | none => none
    | some tr1 => trackTrace tr1 rest
  | _ :: rest => trackTrace tr rest

/-- Track the traces of a run, one iteration after the other. -/
def trackRun (tr : Tracker) : List (List Cmd) → Option Tracker
  | [] => some tr
  | t :: ts =>
    match trackTrace tr t with
    | none => none
    | some tr1 => trackRun tr1 ts

/-- All transition barriers of a command list, in recording order. -/
def barriersOf : List ListCmd → List Barrier
  | [] => []
  | ListCmd.ResourceBarrier bs :: rest => bs ++ barriersOf rest
  | _ :: rest => barriersOf rest

/-- The states a resource is in only while a command list uses it. -/
def inUse : ResourceState → Bool
  | ResourceState.VIDEO_PROCESS_READ => true
  | ResourceState.VIDEO_PROCESS_WRITE => true
  | ResourceState.COPY_SOURCE => true
  | ResourceState.COPY_DEST => true
  | _ => false

/-- Every transition into an in-use state is followed, later in the same list,
by the transition of the same resource back to the state it came from. -/
def pairedOut : List Barrier → Bool
  | [] => true
  | b :: rest =>
    (!inUse b.StateAfter ||
      rest.any (fun u => decide (u.pResource = b.pResource) &&
        decide (u.StateBefore = b.StateAfter) && decide (u.StateAfter = b.StateBefore))) &&
    pairedOut rest

/-- The command lists a trace submits, in order. -/
def submittedLists : List Cmd → List (List ListCmd)
  | [] => []
  | Cmd.ExecuteCommandLists _ l :: rest => l :: submittedLists rest
  | _ :: rest => submittedLists rest

/-! ## The cached import -/

/-- The number of `CreateTexture2D` calls in a trace. -/
def createCalls (t : List Cmd) : Nat := t.countP isCreateTexture2D

/-- The number of `OpenSharedHandle` calls in a trace. -/
def openCalls (t : List Cmd) : Nat := t.countP isOpenSharedHandle

/-- The input textures of the `ProcessFrames` commands of a command list. -/
def processInputs : List ListCmd → List Resource
  | [] => []
  | ListCmd.ProcessFrames _ input :: rest => input :: processInputs rest
  | _ :: rest => processInputs rest

/-- The conversion inputs of a trace: the `ProcessFrames` inputs of the lists it
submits to the conversion queue. -/
def conversionInputs : List Cmd → List Resource
  | [] => []
  | Cmd.ExecuteCommandLists Queue.video l :: rest => processInputs l ++ conversionInputs rest
  | _ :: rest => conversionInputs rest

/-- The destinations of the D3D11 copies of a trace: the source-side halves
(`g_sharedTex11.Get()`) the captured frame is copied into. -/
def stagingTargets : List Cmd → List (Option Nat)
  | [] => []
  | Cmd.D3D11CopyResource dst _ :: rest => dst :: stagingTargets rest
  | _ :: rest => stagingTargets rest

/-- The state after each iteration of a run. -/
def statesAfter (s : State) : List Env → List State
  | [] => []
  | e :: es => (ProcessAndRender s e).1 :: statesAfter (ProcessAndRender s e).1 es

/-- The iteration acquires a frame: `ReadSample` delivers a sample whose buffer
is a DXGI buffer. -/
def acquiresFrame (e : Env) : Prop := ∃ tex, e.read = ReadResult.sample (some tex)

instance (e : Env) : Decidable (acquiresFrame e) :=
  match h : e.read with
  | ReadResult.sample (some tex) => isTrue ⟨tex, h⟩
  | ReadResult.sample none => isFalse (by rintro ⟨t, ht⟩; rw [h] at ht; cases ht)
  | ReadResult.failed => isFalse (by rintro ⟨t, ht⟩; rw [h] at ht; cases ht)
  | ReadResult.noSample => isFalse (by rintro ⟨t, ht⟩; rw [h] at ht; cases ht)

/-- An iteration in which a frame arrives and `CreateTexture2D` fails. -/
def createFailsEnv : Env :=
  { frameEnv 1 with createTexture2D := none }

/-! ## The presentation ring -/

/-- The ring indices that are copy destinations in a command list. -/
def copyDstIndices : List ListCmd → List Nat
  | [] => []
  | ListCmd.CopyResource (Resource.renderTargets i) _ :: rest => i :: copyDstIndices rest
  | _ :: rest => copyDstIndices rest

/-- The writable-surface indices a trace copies into: the copy destinations of
the lists it submits to the presentation queue. -/
def writeIndices : List Cmd → List Nat
  | [] => []
  | Cmd.ExecuteCommandLists Queue.direct l :: rest => copyDstIndices l ++ writeIndices rest
  | _ :: rest => writeIndices rest

/-- The writable-surface indices of a run, in order. -/
def writeIndicesRun : List (List Cmd) → List Nat
  | [] => []
  | t :: ts => writeIndices t ++ writeIndicesRun ts

/-- Iterations that each acquire a frame while the swap chain reports, after the
present of the frame number `k + 1`, the index `(k + 1) % BUFFER_COUNT`; `k` is
the number of frames presented before the first of them. -/
def cyclingFrames (k : Nat) : List Env → Prop
  | [] => True
  | e :: es =>
    acquiresFrame e ∧ e.backBufferIndex = (k + 1) % BUFFER_COUNT ∧ cyclingFrames (k + 1) es

instance cyclingFramesDecidable : (k : Nat) → (envs : List Env) → Decidable (cyclingFrames k envs)
  | _, [] => isTrue trivial
  | k, e :: es =>
    have : Decidable (cyclingFrames (k + 1) es) := cyclingFramesDecidable (k + 1) es
    by unfold cyclingFrames; infer_instance

/-- The source yields nothing: `ReadSample` fails or returns no sample. -/
def noFrame (e : Env) : Prop :=
  e.read = ReadResult.failed ∨ e.read = ReadResult.noSample

instance (e : Env) : Decidable (noFrame e) := by
  unfold noFrame; infer_instance

/-- The two creation calls succeed in the first iteration of the list. -/
def firstImportSucceeds : List Env → Prop
  | [] => True
  | e :: _ => e.createTexture2D.isSome = true ∧ e.openSharedHandle.isSome = true

instance : (envs : List Env) → Decidable (firstImportSucceeds envs)
  | [] => isTrue trivial
  | e :: _ => by unfold firstImportSucceeds; infer_instance

/-- The barriers of a command list that name a ring surface. -/
def ringBarriers (l : List ListCmd) : List Barrier :=
  (barriersOf l).filter (fun b => match b.pResource with
    | Resource.renderTargets _ => true
    | _ => false)

/-- The copies of a command list, as (destination, source). -/
def copyCommands : List ListCmd → List (Resource × Resource)
  | [] => []
  | ListCmd.CopyResource dst src :: rest => (dst, src) :: copyCommands rest
  | _ :: rest => copyCommands rest

/-- The command lists a trace submits to the presentation queue. -/
def directLists : List Cmd → List (List ListCmd)
  | [] => []
  | Cmd.ExecuteCommandLists Queue.direct l :: rest => l :: directLists rest
  | _ :: rest => directLists rest

/-- The presentation-queue submissions and the presents of a trace, in order. -/
def presentOps (t : List Cmd) : List Cmd :=
  t.filter (fun c => isSubmitOn Queue.direct c || isPresent c)

/-! ## The latency gate -/

def isReadSample : Cmd → Bool
  | Cmd.ReadSample => true
  | _ => false

/-- A wait on the frame-latency waitable object with the 1000 ms bound. -/
def isGateWait : Cmd → Bool
  | Cmd.WaitForSingleObjectEx ms _ => decide (ms = 1000)
  | _ => false

/-- What the latency-gate wait of an iteration returned, read off its trace: the
answer `e.gate` when the trace issues a 1000 ms gate wait before its first
`ReadSample`, and `none` when no gate wait precedes the acquisition. -/
def gateWaitResult (e : Env) (t : List Cmd) : Option WaitResult :=
  if (t.takeWhile (fun c => !isReadSample c)).any isGateWait then some e.gate else none

/-- The iteration acquired a frame and submitted its work: its trace has a
present after its first `ReadSample`. -/
def acquiredAndSubmitted (t : List Cmd) : Bool :=
  (t.dropWhile (fun c => !isReadSample c)).any isPresent

/-- For each iteration of a run, in order: what the gate wait that precedes its
`ReadSample` returned, and whether the iteration acquired and submitted a frame.
Entries are in trace order: the gate wait of a later iteration comes after the
present of an earlier one. -/
def gateLog (s : State) : List Env → List (Option WaitResult × Bool)
  | [] => []
  | e :: es =>
    (gateWaitResult e (ProcessAndRender s e).2, acquiredAndSubmitted (ProcessAndRender s e).2) ::
      gateLog (ProcessAndRender s e).1 es

/-- Iterations `i` and `j` of the log both submit a frame and exactly one
submission lies strictly between them: the frame of `j` is two submissions
after the frame of `i`. -/
def twoSubmissionsApart (log : List (Option WaitResult × Bool)) (i j : Nat) : Prop :=
  log[i]?.map Prod.snd = some true ∧ log[j]?.map Prod.snd = some true ∧
  ((log.take j).drop (i + 1)).countP (fun x => x.2) = 1

instance (log : List (Option WaitResult × Bool)) (i j : Nat) :
    Decidable (twoSubmissionsApart log i j) := by
  unfold twoSubmissionsApart; infer_instance

/-- Some latency-gate wait issued after the submission of iteration `i` and
before the `ReadSample` of iteration `j` (the waits of iterations `i + 1` to
`j`) returned because the display raised the signal. -/
def signaledBetween (log : List (Option WaitResult × Bool)) (i j : Nat) : Prop :=
  ∃ m, m < j + 1 ∧ i < m ∧ log[m]?.map Prod.fst = some (some WaitResult.WAIT_OBJECT_0)

instance (log : List (Option WaitResult × Bool)) (i j : Nat) :
    Decidable (signaledBetween log i j) := by
  unfold signaledBetween; infer_instance

/-- The log entry is a gate wait that returned without the signal: by timeout,
by an alert or by failure. -/
def returnedWithoutSignal : Option (Option WaitResult) → Bool
  | some (some WaitResult.WAIT_OBJECT_0) => false
  | some (some _) => true
  | _ => false

/-- Between the submission of iteration `i` and the `ReadSample` of iteration `j`
at least two iterations start, and each of them issues its 1000 ms gate wait
before its `ReadSample` and that wait returns without the signal. -/
def allReturnedWithoutSignal (log : List (Option WaitResult × Bool)) (i j : Nat) : Prop :=
  i + 2 ≤ j ∧ ∀ m, m < j + 1 → i < m → returnedWithoutSignal (log[m]?.map Prod.fst) = true

instance (log : List (Option WaitResult × Bool)) (i j : Nat) :
    Decidable (allReturnedWithoutSignal log i j) := by
  unfold allReturnedWithoutSignal; infer_instance

/-- The backlog bound as the loop can observe it: a frame is acquired and
submitted only if, since the submission two frames earlier, a latency-gate wait
has returned signaled. -/
def BacklogBounded (log : List (Option WaitResult × Bool)) : Prop :=
  ∀ j, j < log.length → ∀ i, i < j → twoSubmissionsApart log i j → signaledBetween log i j

instance (log : List (Option WaitResult × Bool)) : Decidable (BacklogBounded log) := by
  unfold BacklogBounded; infer_instance

/-- An iteration in which the latency-gate wait times out and a frame arrives. -/
def timeoutFrameEnv : Env :=
  { frameEnv 0 with gate := WaitResult.WAIT_TIMEOUT }

/-- An iteration in which the latency-gate wait times out and `ReadSample`
returns no sample. -/
def timeoutNoFrameEnv : Env :=
  { noFrameEnv with gate := WaitResult.WAIT_TIMEOUT }

/-! ## Shared lemmas about one iteration -/

theorem skipCause_isSome_iff_not_completed (s : State) (e : Env) :
    (skipCause s e).isSome = !completed (ProcessAndRender s e).2 := by
  obtain ⟨f, i, t11, t12, h⟩ := s
  obtain ⟨g, rd, c, sh, o, b⟩ := e
  rcases rd with _ | _ | (_ | tex) <;> rcases t11 with _ | a <;> rcases c with _ | c <;>
    rcases o with _ | o <;>
    simp [skipCause, completed, ProcessAndRender, interop, convertAndPresent, acquireCmds,
      isPresent]

/-- Every skip cause other than the failure of `OpenSharedHandle` leaves the
whole state as it was. -/
theorem skip_preserves_state (s : State) (e : Env) (c : SkipCause)
    (hc : skipCause s e = some c) (hne : c ≠ SkipCause.openSharedHandleFailed) :
    (ProcessAndRender s e).1 = s := by
  obtain ⟨f, i, t11, t12, h⟩ := s
  obtain ⟨g, rd, cr, sh, o, b⟩ := e
  rcases rd with _ | _ | (_ | tex) <;> rcases t11 with _ | a <;> rcases cr with _ | cr <;>
    rcases o with _ | o <;>
    simp_all [skipCause, ProcessAndRender, interop]

/-- A skipped iteration, whatever its cause, leaves the completion counter and
the writable surface index as they were. -/
theorem skip_preserves_counters (s : State) (e : Env)
    (hc : (skipCause s e).isSome = true) :
    (ProcessAndRender s e).1.g_fenceValue = s.g_fenceValue ∧
    (ProcessAndRender s e).1.g_frameIndex = s.g_frameIndex := by
  obtain ⟨f, i, t11, t12, h⟩ := s
  obtain ⟨g, rd, cr, sh, o, b⟩ := e
  rcases rd with _ | _ | (_ | tex) <;> rcases t11 with _ | a <;> rcases cr with _ | cr <;>
    rcases o with _ | o <;>
    simp_all [skipCause, ProcessAndRender, interop]

/-- In both outcomes of an iteration: the number of presents, the new counter. -/
theorem iteration_fence (s : State) (e : Env) :
    ((ProcessAndRender s e).2.countP isPresent = 0 ∧
      (ProcessAndRender s e).1.g_fenceValue = s.g_fenceValue) ∨
    ((ProcessAndRender s e).2.countP isPresent = 1 ∧
      (ProcessAndRender s e).1.g_fenceValue = (s.g_fenceValue + 1) % UINT64_SIZE) := by
  obtain ⟨f, i, t11, t12, h⟩ := s
  obtain ⟨g, rd, cr, sh, o, b⟩ := e
  rcases rd with _ | _ | (_ | tex) <;> rcases t11 with _ | a <;> rcases cr with _ | cr <;>
    rcases o with _ | o <;>
    simp [ProcessAndRender, interop, convertAndPresent, acquireCmds, isPresent]

/-- Over a run the counter is its start value plus the number of presents,
modulo `2 ^ 64`. -/
theorem run_fence (envs : List Env) :
    ∀ s : State, s.g_fenceValue < UINT64_SIZE →
      (run s envs).1.g_fenceValue =
        (s.g_fenceValue + presentCalls (run s envs).2) % UINT64_SIZE := by
  induction envs with
  | nil =>
    intro s hs
    simp [run, presentCalls, Nat.mod_eq_of_lt hs]
  | cons e es ih =>
    intro s hs
    have hpos : 0 < UINT64_SIZE := by unfold UINT64_SIZE; norm_num
    rcases iteration_fence s e with ⟨hp, hf⟩ | ⟨hp, hf⟩
    · have := ih (ProcessAndRender s e).1 (by rw [hf]; exact hs)
      simp only [run, presentCalls, hp, this, hf, Nat.zero_add]
    · have := ih (ProcessAndRender s e).1 (by rw [hf]; exact Nat.mod_lt _ hpos)
      simp only [run, presentCalls, hp, this, hf]
      rw [Nat.add_mod, Nat.mod_mod, ← Nat.add_mod]
      congr 1
      omega

/-- A frame that arrives while both halves of the import can be created is
presented, whatever the state. -/
theorem frameEnv_presents (s : State) (b : Nat) :
    (ProcessAndRender s (frameEnv b)).2.countP isPresent = 1 := by
  obtain ⟨f, i, t11, t12, h⟩ := s
  rcases t11 with _ | a <;>
    simp [ProcessAndRender, interop, convertAndPresent, acquireCmds, isPresent, frameEnv]

theorem presentCalls_replicate_frameEnv (b : Nat) (n : Nat) :
    ∀ s : State, presentCalls (run s (List.replicate n (frameEnv b))).2 = n := by
  induction n with
  | zero => intro s; simp [run, presentCalls]
  | succ n ih =>
    intro s
    rw [List.replicate_succ]
    simp only [run, presentCalls, frameEnv_presents, ih]
    omega

/-- C1 (the code at the failing input): starting with an empty cache, an
iteration that acquires a frame, creates the shared D3D11 texture and then fails
in `OpenSharedHandle` is skipped (nothing is submitted or presented), keeps the
counter and the surface index, but leaves `g_sharedTex11` and `g_hShared` set:
the cached import is not what it was before the iteration. -/
theorem C1_open_failure_changes_cached_import :
    skipCause (initState 0) openFailsEnv = some SkipCause.openSharedHandleFailed ∧
    noQueueWork (ProcessAndRender (initState 0) openFailsEnv).2 ∧
    (ProcessAndRender (initState 0) openFailsEnv).1 =
      { g_fenceValue := 0, g_frameIndex := 0,
        g_sharedTex11 := some 11, g_sharedTex12 := none, g_hShared := some 5 } ∧
    ¬ sameCountersAndCache (ProcessAndRender (initState 0) openFailsEnv).1 (initState 0) := by
  refine ⟨by decide, ?_, by decide, by decide⟩
  unfold noQueueWork
  decide

/-- C2 (counterexample): from the counter value `2 ^ 64 - 1` a completed
iteration issues one of each queue call, and the counter becomes 0, which is
neither its previous value nor its previous value plus 1; and after the run of
`2 ^ 64` acquired frames from the initial state, `2 ^ 64` presents have been
issued and the counter is 0. -/
theorem C2_counterexample_wrap :
    maxFenceState.g_fenceValue < UINT64_SIZE ∧
    (ProcessAndRender maxFenceState (frameEnv 1)).1.g_fenceValue = 0 ∧
    ¬ AllOrNothingExact maxFenceState (frameEnv 1) ∧
    presentCalls (run (initState 0) wrapRun).2 = UINT64_SIZE ∧
    (run (initState 0) wrapRun).1.g_fenceValue = 0 ∧
    (run (initState 0) wrapRun).1.g_fenceValue ≠ presentCalls (run (initState 0) wrapRun).2 := by
  have hp : presentCalls (run (initState 0) wrapRun).2 = UINT64_SIZE :=
    presentCalls_replicate_frameEnv 0 UINT64_SIZE (initState 0)
  have hpos : 0 < UINT64_SIZE := by unfold UINT64_SIZE; norm_num
  have hf : (run (initState 0) wrapRun).1.g_fenceValue = 0 := by
    have h := run_fence wrapRun (initState 0) hpos
    rw [h, hp]
    have hz : (initState 0).g_fenceValue = 0 := rfl
    rw [hz, Nat.zero_add, Nat.mod_self]
  refine ⟨by decide, by decide, ?_, hp, hf, ?_⟩
  · unfold AllOrNothingExact noQueueWork oneOfEach
    decide
  · rw [hf, hp]
    exact Nat.ne_of_lt hpos

/-- C2 (amended): every iteration either issues no queue submission, no signal,
no queue wait and no present and leaves `g_fenceValue` unchanged, or issues
exactly one conversion-queue submission, one signal, one presentation-queue
wait, one presentation-queue submission and one present and sets `g_fenceValue`
to its successor modulo `2 ^ 64`; and after any run that starts from counter 0,
`g_fenceValue` equals the number of present calls modulo `2 ^ 64`. -/
theorem C2_all_or_nothing_mod (s : State) (e : Env) (envs : List Env) :
    ((noQueueWork (ProcessAndRender s e).2 ∧
        (ProcessAndRender s e).1.g_fenceValue = s.g_fenceValue) ∨
      (oneOfEach (ProcessAndRender s e).2 ∧
        (ProcessAndRender s e).1.g_fenceValue = (s.g_fenceValue + 1) % UINT64_SIZE)) ∧
    (run { s with g_fenceValue := 0 } envs).1.g_fenceValue =
      presentCalls (run { s with g_fenceValue := 0 } envs).2 % UINT64_SIZE := by
  constructor
  · obtain ⟨f, i, t11, t12, h⟩ := s
    obtain ⟨g, rd, cr, sh, o, b⟩ := e
    rcases rd with _ | _ | (_ | tex) <;> rcases t11 with _ | a <;> rcases cr with _ | cr <;>
      rcases o with _ | o <;>
      simp [ProcessAndRender, interop, convertAndPresent, acquireCmds, noQueueWork, oneOfEach,
        isPresent, isSubmit, isSignal, isQueueWait, isSubmitOn, isSignalOn, isWaitOn]
  · have h := run_fence envs { s with g_fenceValue := 0 } (by unfold UINT64_SIZE; norm_num)
    simpa using h

/-- In both outcomes of an iteration: the number of presents, the values the
presentation queue waits for, the new counter. -/
theorem iteration_waits (s : State) (e : Env) :
    ((ProcessAndRender s e).2.countP isPresent = 0 ∧
      waitValues (ProcessAndRender s e).2 = [] ∧
      (ProcessAndRender s e).1.g_fenceValue = s.g_fenceValue) ∨
    ((ProcessAndRender s e).2.countP isPresent = 1 ∧
      waitValues (ProcessAndRender s e).2 = [(s.g_fenceValue + 1) % UINT64_SIZE] ∧
      (ProcessAndRender s e).1.g_fenceValue = (s.g_fenceValue + 1) % UINT64_SIZE) := by
  obtain ⟨f, i, t11, t12, h⟩ := s
  obtain ⟨g, rd, cr, sh, o, b⟩ := e
  rcases rd with _ | _ | (_ | tex) <;> rcases t11 with _ | a <;> rcases cr with _ | cr <;>
    rcases o with _ | o <;>
    simp [ProcessAndRender, interop, convertAndPresent, acquireCmds, isPresent, waitValues]

/-- Over a run the values waited for are the successors of the start counter,
one per present, modulo `2 ^ 64`. -/
theorem run_waits (envs : List Env) :
    ∀ s : State, s.g_fenceValue < UINT64_SIZE →
      waitValuesRun (run s envs).2 =
        (List.range (presentCalls (run s envs).2)).map
          (fun k => (s.g_fenceValue + k + 1) % UINT64_SIZE) := by
  induction envs with
  | nil =>
    intro s _
    simp [run, presentCalls, waitValuesRun]
  | cons e es ih =>
    intro s hs
    have hpos : 0 < UINT64_SIZE := by unfold UINT64_SIZE; norm_num
    rcases iteration_waits s e with ⟨hp, hw, hf⟩ | ⟨hp, hw, hf⟩
    · have := ih (ProcessAndRender s e).1 (by rw [hf]; exact hs)
      simp only [run, presentCalls, waitValuesRun, hp, hw, this, hf, Nat.zero_add,
        List.nil_append]
    · have := ih (ProcessAndRender s e).1 (by rw [hf]; exact Nat.mod_lt _ hpos)
      simp only [run, presentCalls, waitValuesRun, hp, hw, this, hf]
      rw [Nat.add_comm 1, List.range_succ_eq_map]
      simp only [List.map_cons, List.map_map, List.singleton_append, Nat.add_zero]
      congr 1
      apply List.map_congr_left
      intro k _
      simp only [Function.comp, UINT64_SIZE]
      omega

/-- The successors modulo `n` of `0, ..., n - 1` are not `1, ..., n`. -/
theorem map_succ_mod_ne_range (n : Nat) (hn : 0 < n) :
    (List.range n).map (fun k => (k + 1) % n) ≠ List.range' 1 n := by
  intro h
  have h2 := congrArg (fun l => l[n - 1]?) h
  have hlt : n - 1 < n := by omega
  simp only [List.getElem?_map] at h2
  rw [List.getElem?_range hlt, List.getElem?_range' 1 1 hlt] at h2
  have e1 : n - 1 + 1 = n := by omega
  simp only [Option.map_some', e1, Nat.mod_self, Option.some.injEq] at h2
  omega

/-- C3 (counterexample): in the run of `2 ^ 64` acquired frames from the initial
state every iteration is completed, and the values the presentation queue waits
for are not `1, 2, ..., 2 ^ 64`: the last one is 0. -/
theorem C3_counterexample_wrap :
    presentCalls (run (initState 0) wrapRun).2 = UINT64_SIZE ∧
    waitValuesRun (run (initState 0) wrapRun).2 ≠ List.range' 1 UINT64_SIZE := by
  have hpos : 0 < UINT64_SIZE := by unfold UINT64_SIZE; norm_num
  have hp : presentCalls (run (initState 0) wrapRun).2 = UINT64_SIZE :=
    presentCalls_replicate_frameEnv 0 UINT64_SIZE (initState 0)
  refine ⟨hp, ?_⟩
  have hw := run_waits wrapRun (initState 0) hpos
  rw [hw, hp]
  have hz : (initState 0).g_fenceValue = 0 := rfl
  simp only [hz, Nat.zero_add]
  exact map_succ_mod_ne_range UINT64_SIZE hpos

/-- C3 (amended): in a completed iteration the queue-level calls are, in this
order, the conversion-queue submission, `Signal(fence, v)` on the conversion
queue, `Wait(fence, v)` on the presentation queue with the same `v` (the new
counter value), the presentation-queue submission and the present; and over a
run that starts from counter 0 the values waited for by the presentation queue
are, in submission order, `1 % 2 ^ 64, 2 % 2 ^ 64, ...`, one per completed
iteration (the K-th waits on K for every K below `2 ^ 64`). -/
theorem C3_order_and_wait_values (s : State) (e : Env) (envs : List Env)
    (hc : completed (ProcessAndRender s e).2 = true) :
    queueOps (ProcessAndRender s e).2 =
      [ Cmd.ExecuteCommandLists Queue.video
          (videoCommands (ProcessAndRender s e).1.g_sharedTex12),
        Cmd.Signal Queue.video (ProcessAndRender s e).1.g_fenceValue,
        Cmd.Wait Queue.direct (ProcessAndRender s e).1.g_fenceValue,
        Cmd.ExecuteCommandLists Queue.direct (directCommands s.g_frameIndex),
        Cmd.Present 0 0 ] ∧
    (ProcessAndRender s e).1.g_fenceValue = (s.g_fenceValue + 1) % UINT64_SIZE ∧
    waitValuesRun (run { s with g_fenceValue := 0 } envs).2 =
      (List.range (presentCalls (run { s with g_fenceValue := 0 } envs).2)).map
        (fun k => (k + 1) % UINT64_SIZE) := by
  refine ⟨?_, ?_, ?_⟩
  · obtain ⟨f, i, t11, t12, h⟩ := s
    obtain ⟨g, rd, cr, sh, o, b⟩ := e
    rcases rd with _ | _ | (_ | tex) <;> rcases t11 with _ | a <;> rcases cr with _ | cr <;>
      rcases o with _ | o <;>
      simp_all [ProcessAndRender, interop, convertAndPresent, acquireCmds, completed, queueOps,
        isPresent, isSubmit, isSignal, isQueueWait, isSubmitOn, isSignalOn, isWaitOn]
  · obtain ⟨f, i, t11, t12, h⟩ := s
    obtain ⟨g, rd, cr, sh, o, b⟩ := e
    rcases rd with _ | _ | (_ | tex) <;> rcases t11 with _ | a <;> rcases cr with _ | cr <;>
      rcases o with _ | o <;>
      simp_all [ProcessAndRender, interop, convertAndPresent, acquireCmds, completed, isPresent]
  · have h := run_waits envs { s with g_fenceValue := 0 } (by unfold UINT64_SIZE; norm_num)
    simpa using h

/-- C3 (witness): a first frame from the initial state, followed by a run of
three frames. -/
theorem C3_order_and_wait_values_witness :
    completed (ProcessAndRender (initState 0) (frameEnv 1)).2 = true ∧
    queueOps (ProcessAndRender (initState 0) (frameEnv 1)).2 =
      [ Cmd.ExecuteCommandLists Queue.video (videoCommands (some 12)),
        Cmd.Signal Queue.video 1,
        Cmd.Wait Queue.direct 1,
        Cmd.ExecuteCommandLists Queue.direct (directCommands 0),
        Cmd.Present 0 0 ] ∧
    waitValuesRun (run (initState 0) [frameEnv 1, frameEnv 0, frameEnv 1]).2 = [1, 2, 3] := by
  have h := C3_order_and_wait_values (initState 0) (frameEnv 1)
    [frameEnv 1, frameEnv 0, frameEnv 1] (by decide)
  refine ⟨by decide, ?_, by decide⟩
  exact h.1

/-! ### Resource states -/

theorem trackList_videoCommands (p : Option Nat) :
    trackList restTracker (videoCommands p) = some restTracker := by
  have h : (fun r => if r = Resource.processedTexture then ResourceState.COMMON
        else if r = Resource.sharedTex12 p then ResourceState.COMMON
        else if r = Resource.processedTexture then ResourceState.VIDEO_PROCESS_WRITE
        else if r = Resource.sharedTex12 p then ResourceState.VIDEO_PROCESS_READ
        else restTracker r) = restTracker := by
    funext r
    cases r <;> simp [restTracker]
  simp [videoCommands, trackList, applyBarriers, applyBarrier, restTracker] at h ⊢
  exact h

theorem trackList_directCommands (i : Nat) :
    trackList restTracker (directCommands i) = some restTracker := by
  have h : (fun r => if r = Resource.renderTargets i then ResourceState.PRESENT
        else if r = Resource.processedTexture then ResourceState.COMMON
        else if r = Resource.renderTargets i then ResourceState.COPY_DEST
        else if r = Resource.processedTexture then ResourceState.COPY_SOURCE
        else restTracker r) = restTracker := by
    funext r
    cases r <;> simp [restTracker]
  simp [directCommands, trackList, applyBarriers, applyBarrier, restTracker] at h ⊢
  exact h

theorem trackTrace_iteration (s : State) (e : Env) :
    trackTrace restTracker (ProcessAndRender s e).2 = some restTracker := by
  obtain ⟨f, i, t11, t12, h⟩ := s
  obtain ⟨g, rd, cr, sh, o, b⟩ := e
  rcases rd with _ | _ | (_ | tex) <;> rcases t11 with _ | a <;> rcases cr with _ | cr <;>
    rcases o with _ | o <;>
    simp [ProcessAndRender, interop, convertAndPresent, acquireCmds, trackTrace,
      trackList_videoCommands, trackList_directCommands]

theorem trackRun_run (envs : List Env) :
    ∀ s : State, trackRun restTracker (run s envs).2 = some restTracker := by
  induction envs with
  | nil => intro s; simp [run, trackRun]
  | cons e es ih =>
    intro s
    simp [run, trackRun, trackTrace_iteration, ih]

/-- The tracker does reject a barrier whose `StateBefore` is not the tracked
state: a ring surface at rest is not in COPY_DEST. -/
theorem applyBarrier_rejects_mismatch :
    (applyBarrier restTracker
      ⟨Resource.renderTargets 0, ResourceState.COPY_DEST, ResourceState.PRESENT⟩).isNone = true := by
  simp [applyBarrier, restTracker]

/-- C4: with the shared import and the intermediate surface tracked from COMMON
and every ring surface from PRESENT, every barrier an iteration records has the
tracked state of its resource as `StateBefore` (the tracker accepts the whole
trace), every transition into VIDEO_PROCESS_READ, VIDEO_PROCESS_WRITE,
COPY_SOURCE or COPY_DEST is followed in the same command list by the transition
back, and at the end of the iteration, and of every iteration of a run, the
tracked states are again COMMON and PRESENT. -/
theorem C4_barriers_match_and_return_to_rest (s : State) (e : Env) (envs : List Env) :
    trackTrace restTracker (ProcessAndRender s e).2 = some restTracker ∧
    (submittedLists (ProcessAndRender s e).2).all (fun l => pairedOut (barriersOf l)) = true ∧
    trackRun restTracker (run s envs).2 = some restTracker := by
  refine ⟨trackTrace_iteration s e, ?_, trackRun_run envs s⟩
  obtain ⟨f, i, t11, t12, h⟩ := s
  obtain ⟨g, rd, cr, sh, o, b⟩ := e
  rcases rd with _ | _ | (_ | tex) <;> rcases t11 with _ | a <;> rcases cr with _ | cr <;>
    rcases o with _ | o <;>
    simp [ProcessAndRender, interop, convertAndPresent, acquireCmds, submittedLists,
      videoCommands, directCommands, barriersOf, pairedOut, inUse]

/-! ### The cached import -/

/-- Once both halves are cached, an iteration that acquires a frame makes no
creation call, converts from the cached pair and leaves the cache as it is. -/
theorem cached_iteration (s : State) (e : Env) (a b : Nat)
    (ha : s.g_sharedTex11 = some a) (hb : s.g_sharedTex12 = some b)
    (he : acquiresFrame e) :
    createCalls (ProcessAndRender s e).2 = 0 ∧
    openCalls (ProcessAndRender s e).2 = 0 ∧
    conversionInputs (ProcessAndRender s e).2 = [Resource.sharedTex12 (some b)] ∧
    stagingTargets (ProcessAndRender s e).2 = [some a] ∧
    (ProcessAndRender s e).1.g_sharedTex11 = some a ∧
    (ProcessAndRender s e).1.g_sharedTex12 = some b ∧
    (ProcessAndRender s e).1.g_hShared = s.g_hShared := by
  obtain ⟨f, i, t11, t12, h⟩ := s
  obtain ⟨g, rd, cr, sh, o, bb⟩ := e
  obtain ⟨tex, htex⟩ := he
  simp only at ha hb htex
  subst ha hb htex
  simp [ProcessAndRender, interop, convertAndPresent, acquireCmds, createCalls, openCalls,
    conversionInputs, stagingTargets, videoCommands, processInputs, isCreateTexture2D,
    isOpenSharedHandle]

theorem cached_run (envs : List Env) :
    ∀ (s : State) (a b : Nat), s.g_sharedTex11 = some a → s.g_sharedTex12 = some b →
      (∀ e ∈ envs, acquiresFrame e) →
      (run s envs).2.map createCalls = List.replicate envs.length 0 ∧
      (run s envs).2.map openCalls = List.replicate envs.length 0 ∧
      (run s envs).2.map conversionInputs =
        List.replicate envs.length [Resource.sharedTex12 (some b)] ∧
      (run s envs).2.map stagingTargets = List.replicate envs.length [some a] ∧
      ∀ st ∈ statesAfter s envs,
        st.g_sharedTex11 = some a ∧ st.g_sharedTex12 = some b ∧ st.g_hShared = s.g_hShared := by
  induction envs with
  | nil => intro s a b _ _ _; simp [run, statesAfter]
  | cons e es ih =>
    intro s a b ha hb hv
    obtain ⟨h1, h2, h3, h4, h5, h6, h7⟩ :=
      cached_iteration s e a b ha hb (hv e (List.mem_cons_self _ _))
    obtain ⟨i1, i2, i3, i4, i5⟩ :=
      ih (ProcessAndRender s e).1 a b h5 h6 (fun x hx => hv x (List.mem_cons_of_mem _ hx))
    refine ⟨?_, ?_, ?_, ?_, ?_⟩
    · simp [run, h1, i1, List.replicate_succ]
    · simp [run, h2, i2, List.replicate_succ]
    · simp [run, h3, i3, List.replicate_succ]
    · simp [run, h4, i4, List.replicate_succ]
    · intro st hst
      simp only [statesAfter, List.mem_cons] at hst
      rcases hst with rfl | hst
      · exact ⟨h5, h6, h7⟩
      · have := i5 st hst
        rw [h7] at this
        exact this

/-- C5: in a run of `envs.length + 1` consecutive acquired frames that starts
with no cached import and whose first frame creates both halves (`a` by
`CreateTexture2D`, `b` by `OpenSharedHandle`), each creation call is made
exactly once, in the first frame, and every frame copies into `a`, converts
from `b` and leaves the cached triple `(a, b, handle)` of the first frame. -/
theorem C5_import_created_once (s : State) (e0 : Env) (envs : List Env) (a b : Nat)
    (hs : s.g_sharedTex11 = none)
    (h0 : acquiresFrame e0)
    (ha : e0.createTexture2D = some a) (hb : e0.openSharedHandle = some b)
    (hv : ∀ e ∈ envs, acquiresFrame e) :
    (run s (e0 :: envs)).2.map createCalls = 1 :: List.replicate envs.length 0 ∧
    (run s (e0 :: envs)).2.map openCalls = 1 :: List.replicate envs.length 0 ∧
    (run s (e0 :: envs)).2.map conversionInputs =
      List.replicate (envs.length + 1) [Resource.sharedTex12 (some b)] ∧
    (run s (e0 :: envs)).2.map stagingTargets =
      List.replicate (envs.length + 1) [some a] ∧
    ∀ st ∈ statesAfter s (e0 :: envs),
      st.g_sharedTex11 = some a ∧ st.g_sharedTex12 = some b ∧
      st.g_hShared = e0.sharedHandle := by
  have first : createCalls (ProcessAndRender s e0).2 = 1 ∧
      openCalls (ProcessAndRender s e0).2 = 1 ∧
      conversionInputs (ProcessAndRender s e0).2 = [Resource.sharedTex12 (some b)] ∧
      stagingTargets (ProcessAndRender s e0).2 = [some a] ∧
      (ProcessAndRender s e0).1.g_sharedTex11 = some a ∧
      (ProcessAndRender s e0).1.g_sharedTex12 = some b ∧
      (ProcessAndRender s e0).1.g_hShared = e0.sharedHandle := by
    obtain ⟨f, i, t11, t12, h⟩ := s
    obtain ⟨g, rd, cr, sh, o, bb⟩ := e0
    obtain ⟨tex, htex⟩ := h0
    simp only at hs ha hb htex
    subst hs ha hb htex
    simp [ProcessAndRender, interop, convertAndPresent, acquireCmds, createCalls, openCalls,
      conversionInputs, stagingTargets, videoCommands, processInputs, isCreateTexture2D,
      isOpenSharedHandle]
  obtain ⟨h1, h2, h3, h4, h5, h6, h7⟩ := first
  obtain ⟨i1, i2, i3, i4, i5⟩ := cached_run envs (ProcessAndRender s e0).1 a b h5 h6 hv
  refine ⟨?_, ?_, ?_, ?_, ?_⟩
  · simp [run, h1, i1]
  · simp [run, h2, i2]
  · simp [run, h3, i3, List.replicate_succ]
  · simp [run, h4, i4, List.replicate_succ]
  · intro st hst
    simp only [statesAfter, List.mem_cons] at hst
    rcases hst with rfl | hst
    · exact ⟨h5, h6, h7⟩
    · have := i5 st hst
      rw [h7] at this
      exact this

/-- C5 (witness): three acquired frames from the initial state. -/
theorem C5_import_created_once_witness :
    (run (initState 0) [frameEnv 1, frameEnv 0, frameEnv 1]).2.map createCalls = [1, 0, 0] ∧
    (run (initState 0) [frameEnv 1, frameEnv 0, frameEnv 1]).2.map openCalls = [1, 0, 0] ∧
    (run (initState 0) [frameEnv 1, frameEnv 0, frameEnv 1]).2.map conversionInputs =
      [[Resource.sharedTex12 (some 12)], [Resource.sharedTex12 (some 12)],
       [Resource.sharedTex12 (some 12)]] ∧
    ∀ st ∈ statesAfter (initState 0) [frameEnv 1, frameEnv 0, frameEnv 1],
      st.g_sharedTex11 = some 11 ∧ st.g_sharedTex12 = some 12 ∧ st.g_hShared = some 5 := by
  have h := C5_import_created_once (initState 0) (frameEnv 1) [frameEnv 0, frameEnv 1] 11 12
    rfl (by decide) rfl rfl (by decide)
  exact ⟨h.1, h.2.1, h.2.2.1, h.2.2.2.2⟩

/-- C6 (the code at the failing input): from the initial state, a first frame
whose `OpenSharedHandle` fails is dropped; the next acquired frame, for which
`OpenSharedHandle` would succeed, makes no `CreateTexture2D` and no
`OpenSharedHandle` call, and still submits the conversion, whose input is the
null `g_sharedTex12`; the processing-side half is never created. -/
theorem C6_open_failure_is_not_retried :
    skipCause (initState 0) openFailsEnv = some SkipCause.openSharedHandleFailed ∧
    (frameEnv 1).openSharedHandle = some 12 ∧
    (run (initState 0) [openFailsEnv, frameEnv 1]).2.map createCalls = [1, 0] ∧
    (run (initState 0) [openFailsEnv, frameEnv 1]).2.map openCalls = [1, 0] ∧
    (run (initState 0) [openFailsEnv, frameEnv 1]).2.map completed = [false, true] ∧
    (run (initState 0) [openFailsEnv, frameEnv 1]).2.map conversionInputs =
      [[], [Resource.sharedTex12 none]] ∧
    (run (initState 0) [openFailsEnv, frameEnv 1]).1.g_sharedTex12 = none := by
  decide

/-- A failure of `CreateTexture2D` is retried: the next acquired frame calls
`CreateTexture2D` and `OpenSharedHandle` again. -/
theorem create_failure_is_retried (s : State) (e1 e2 : Env)
    (hs : s.g_sharedTex11 = none) (h1 : acquiresFrame e1) (hc : e1.createTexture2D = none)
    (h2 : acquiresFrame e2) (hc2 : e2.createTexture2D.isSome = true) :
    (ProcessAndRender s e1).1 = s ∧
    createCalls (ProcessAndRender (ProcessAndRender s e1).1 e2).2 = 1 ∧
    openCalls (ProcessAndRender (ProcessAndRender s e1).1 e2).2 = 1 := by
  obtain ⟨f, i, t11, t12, h⟩ := s
  obtain ⟨g, rd, cr, sh, o, bb⟩ := e1
  obtain ⟨g2, rd2, cr2, sh2, o2, bb2⟩ := e2
  obtain ⟨tex, htex⟩ := h1
  obtain ⟨tex2, htex2⟩ := h2
  simp only at hs hc htex htex2 hc2
  subst hs hc htex htex2
  rcases cr2 with _ | c2
  · simp at hc2
  · rcases o2 with _ | o2 <;>
      simp [ProcessAndRender, interop, convertAndPresent, acquireCmds, createCalls, openCalls,
        isCreateTexture2D, isOpenSharedHandle]

/-! ### The presentation ring -/

/-- An iteration that acquires a frame and either finds the source-side half
cached or can create both halves presents into the current writable surface. -/
theorem presenting_iteration (s : State) (e : Env) (he : acquiresFrame e)
    (hi : s.g_sharedTex11.isSome = true ∨
      (e.createTexture2D.isSome = true ∧ e.openSharedHandle.isSome = true)) :
    (ProcessAndRender s e).2.countP isPresent = 1 ∧
    writeIndices (ProcessAndRender s e).2 = [s.g_frameIndex] ∧
    (ProcessAndRender s e).1.g_frameIndex = e.backBufferIndex ∧
    (ProcessAndRender s e).1.g_sharedTex11.isSome = true := by
  obtain ⟨f, i, t11, t12, h⟩ := s
  obtain ⟨g, rd, cr, sh, o, b⟩ := e
  obtain ⟨tex, htex⟩ := he
  simp only at htex
  subst htex
  rcases t11 with _ | a <;> rcases cr with _ | cr <;> rcases o with _ | o <;>
    simp_all [ProcessAndRender, interop, convertAndPresent, acquireCmds, isPresent,
      writeIndices, directCommands, copyDstIndices]

/-- An iteration in which the source yields nothing changes nothing and presents
nothing. -/
theorem noFrame_iteration (s : State) (e : Env) (he : noFrame e) :
    (ProcessAndRender s e).1 = s ∧
    (ProcessAndRender s e).2.countP isPresent = 0 ∧
    writeIndices (ProcessAndRender s e).2 = [] := by
  obtain ⟨g, rd, cr, sh, o, b⟩ := e
  rcases he with h | h <;> simp only at h <;> subst h <;>
    simp [ProcessAndRender, acquireCmds, isPresent, writeIndices]

theorem noFrame_run (nones : List Env) :
    ∀ s : State, (∀ e ∈ nones, noFrame e) →
      (run s nones).1 = s ∧ presentCalls (run s nones).2 = 0 ∧
      writeIndicesRun (run s nones).2 = [] := by
  induction nones with
  | nil => intro s _; simp [run, presentCalls, writeIndicesRun]
  | cons e es ih =>
    intro s hn
    obtain ⟨h1, h2, h3⟩ := noFrame_iteration s e (hn e (List.mem_cons_self _ _))
    obtain ⟨i1, i2, i3⟩ := ih s (fun x hx => hn x (List.mem_cons_of_mem _ hx))
    simp [run, presentCalls, writeIndicesRun, h1, h2, h3, i1, i2, i3]

theorem run_append (a b : List Env) :
    ∀ s : State, run s (a ++ b) = ((run (run s a).1 b).1, (run s a).2 ++ (run (run s a).1 b).2) := by
  induction a with
  | nil => intro s; simp [run]
  | cons e es ih => intro s; simp [run, ih]

theorem presentCalls_append (a b : List (List Cmd)) :
    presentCalls (a ++ b) = presentCalls a + presentCalls b := by
  induction a with
  | nil => simp [presentCalls]
  | cons t ts ih => simp [presentCalls, ih]; omega

theorem writeIndicesRun_append (a b : List (List Cmd)) :
    writeIndicesRun (a ++ b) = writeIndicesRun a ++ writeIndicesRun b := by
  induction a with
  | nil => simp [writeIndicesRun]
  | cons t ts ih => simp [writeIndicesRun, ih]

theorem cycling_run (frames : List Env) :
    ∀ (s : State) (k : Nat), s.g_frameIndex = k % BUFFER_COUNT → cyclingFrames k frames →
      (s.g_sharedTex11.isSome = true ∨ firstImportSucceeds frames) →
      presentCalls (run s frames).2 = frames.length ∧
      writeIndicesRun (run s frames).2 =
        (List.range frames.length).map (fun j => (k + j) % BUFFER_COUNT) := by
  induction frames with
  | nil => intro s k _ _ _; simp [run, presentCalls, writeIndicesRun]
  | cons e es ih =>
    intro s k hk hc hi
    obtain ⟨hacq, hidx, hrest⟩ := hc
    have hi2 : s.g_sharedTex11.isSome = true ∨
        (e.createTexture2D.isSome = true ∧ e.openSharedHandle.isSome = true) := by
      rcases hi with h | h
      · exact Or.inl h
      · exact Or.inr h
    obtain ⟨h1, h2, h3, h4⟩ := presenting_iteration s e hacq hi2
    obtain ⟨i1, i2⟩ := ih (ProcessAndRender s e).1 (k + 1) (by rw [h3, hidx]) hrest (Or.inl h4)
    refine ⟨?_, ?_⟩
    · simp only [run, presentCalls, h1, i1, List.length_cons]
      omega
    · simp only [run, writeIndicesRun, h2, i2, List.length_cons, hk]
      rw [List.range_succ_eq_map]
      simp only [List.map_cons, List.map_map, List.singleton_append, Nat.add_zero]
      congr 1
      apply List.map_congr_left
      intro j _
      simp only [Function.comp]
      congr 1
      omega

/-- C7 (counterexample): the source yields one frame in a DXGI buffer and then
nothing, the swap chain reports index 1 after index 0, but `CreateTexture2D`
fails on that frame: no present call is issued, not one. -/
theorem C7_counterexample_import_fails :
    cyclingFrames 0 [createFailsEnv] ∧ noFrame noFrameEnv ∧
    presentCalls (run (initState 0) ([createFailsEnv] ++ [noFrameEnv])).2 = 0 ∧
    presentCalls (run (initState 0) ([createFailsEnv] ++ [noFrameEnv])).2 ≠
      [createFailsEnv].length := by
  refine ⟨⟨⟨7, rfl⟩, rfl, trivial⟩, Or.inr rfl, by decide, by decide⟩

/-- C7 (amended): from the initial state with writable index 0, when the source
yields `frames.length` frames and then nothing, the swap chain reports indices
cycling modulo 2, and the import succeeds on the first frame, exactly
`frames.length` presents are issued and the k-th frame is copied into ring
surface `(k - 1) % 2`; for three frames the indices are 0, 1, 0 and the counter
reaches 3. -/
theorem C7_ring_indices (frames nones : List Env)
    (hf : cyclingFrames 0 frames) (hi : firstImportSucceeds frames)
    (hn : ∀ e ∈ nones, noFrame e) :
    presentCalls (run (initState 0) (frames ++ nones)).2 = frames.length ∧
    writeIndicesRun (run (initState 0) (frames ++ nones)).2 =
      (List.range frames.length).map (fun j => j % BUFFER_COUNT) ∧
    (frames.length = 3 →
      writeIndicesRun (run (initState 0) (frames ++ nones)).2 = [0, 1, 0] ∧
      (run (initState 0) (frames ++ nones)).1.g_fenceValue = 3) := by
  obtain ⟨c1, c2⟩ := cycling_run frames (initState 0) 0 rfl hf (Or.inr hi)
  obtain ⟨n1, n2, n3⟩ := noFrame_run nones (run (initState 0) frames).1 hn
  have hp : presentCalls (run (initState 0) (frames ++ nones)).2 = frames.length := by
    rw [run_append]
    simp only [presentCalls_append, c1, n2, Nat.add_zero]
  have hw : writeIndicesRun (run (initState 0) (frames ++ nones)).2 =
      (List.range frames.length).map (fun j => j % BUFFER_COUNT) := by
    rw [run_append]
    simp only [writeIndicesRun_append, c2, n3, List.append_nil, Nat.zero_add]
  refine ⟨hp, hw, ?_⟩
  intro h3
  constructor
  · rw [hw, h3]
    decide
  · have hfence := run_fence (frames ++ nones) (initState 0) (by decide)
    rw [hfence, hp, h3]
    decide

/-- C7 (witness): three frames, then two iterations without a sample. -/
theorem C7_ring_indices_witness :
    presentCalls (run (initState 0)
      ([frameEnv 1, frameEnv 0, frameEnv 1] ++ [noFrameEnv, noFrameEnv])).2 = 3 ∧
    writeIndicesRun (run (initState 0)
      ([frameEnv 1, frameEnv 0, frameEnv 1] ++ [noFrameEnv, noFrameEnv])).2 = [0, 1, 0] ∧
    (run (initState 0)
      ([frameEnv 1, frameEnv 0, frameEnv 1] ++ [noFrameEnv, noFrameEnv])).1.g_fenceValue = 3 := by
  have h := C7_ring_indices [frameEnv 1, frameEnv 0, frameEnv 1] [noFrameEnv, noFrameEnv]
    ⟨⟨7, rfl⟩, rfl, ⟨7, rfl⟩, rfl, ⟨7, rfl⟩, rfl, trivial⟩ ⟨rfl, rfl⟩
    (by intro e he; simp only [List.mem_cons, List.mem_singleton, List.not_mem_nil, or_false,
          or_self] at he; subst he; exact Or.inr rfl)
  exact ⟨h.1, (h.2.2 rfl).1, (h.2.2 rfl).2⟩

/-- C8: in a completed iteration exactly one list is submitted to the
presentation queue; its two ring-surface barriers (PRESENT to COPY_DEST, then
COPY_DEST to PRESENT) and the destination of its one copy, whose source is the
intermediate surface, all name the ring surface at the `g_frameIndex` held at
the start of the iteration; `Present(0, 0)` follows that submission; and the
iteration ends by reading the swap chain's index into `g_frameIndex`. -/
theorem C8_present_into_writable_surface (s : State) (e : Env)
    (hc : completed (ProcessAndRender s e).2 = true) :
    ∃ l : List ListCmd,
      directLists (ProcessAndRender s e).2 = [l] ∧
      ringBarriers l =
        [ ⟨Resource.renderTargets s.g_frameIndex, ResourceState.PRESENT, ResourceState.COPY_DEST⟩,
          ⟨Resource.renderTargets s.g_frameIndex, ResourceState.COPY_DEST, ResourceState.PRESENT⟩ ] ∧
      copyCommands l = [(Resource.renderTargets s.g_frameIndex, Resource.processedTexture)] ∧
      presentOps (ProcessAndRender s e).2 =
        [Cmd.ExecuteCommandLists Queue.direct l, Cmd.Present 0 0] ∧
      (ProcessAndRender s e).2.getLast? = some Cmd.GetCurrentBackBufferIndex ∧
      (ProcessAndRender s e).1.g_frameIndex = e.backBufferIndex := by
  refine ⟨directCommands s.g_frameIndex, ?_⟩
  obtain ⟨f, i, t11, t12, h⟩ := s
  obtain ⟨g, rd, cr, sh, o, b⟩ := e
  rcases rd with _ | _ | (_ | tex) <;> rcases t11 with _ | a <;> rcases cr with _ | cr <;>
    rcases o with _ | o <;>
    simp_all [ProcessAndRender, interop, convertAndPresent, acquireCmds, completed, isPresent,
      directLists, presentOps, isSubmitOn, ringBarriers, barriersOf, copyCommands,
      directCommands]

/-- C8 (witness): the second frame of a run, with writable index 1 at its start
and index 0 reported after its present. -/
theorem C8_present_into_writable_surface_witness :
    completed (ProcessAndRender (ProcessAndRender (initState 0) (frameEnv 1)).1 (frameEnv 0)).2
      = true ∧
    ∃ l : List ListCmd,
      directLists (ProcessAndRender (ProcessAndRender (initState 0) (frameEnv 1)).1
        (frameEnv 0)).2 = [l] ∧
      copyCommands l = [(Resource.renderTargets 1, Resource.processedTexture)] ∧
      (ProcessAndRender (ProcessAndRender (initState 0) (frameEnv 1)).1
        (frameEnv 0)).1.g_frameIndex = 0 := by
  obtain ⟨l, h1, _, h3, _, _, h6⟩ := C8_present_into_writable_surface
    (ProcessAndRender (initState 0) (frameEnv 1)).1 (frameEnv 0) (by decide)
  exact ⟨by decide, l, h1, h3, h6⟩

/-! ### The latency gate -/

theorem iteration_starts_with_gate_wait (s : State) (e : Env) :
    (ProcessAndRender s e).2.take 3 =
      [Cmd.GetFrameLatencyWaitableObject, Cmd.WaitForSingleObjectEx 1000 true, Cmd.ReadSample] := by
  obtain ⟨f, i, t11, t12, h⟩ := s
  obtain ⟨g, rd, cr, sh, o, b⟩ := e
  rcases rd with _ | _ | (_ | tex) <;> rcases t11 with _ | a <;> rcases cr with _ | cr <;>
    rcases o with _ | o <;>
    simp [ProcessAndRender, interop, convertAndPresent, acquireCmds]

theorem run_starts_with_gate_wait (envs : List Env) :
    ∀ s : State, ∀ t ∈ (run s envs).2, t.take 3 =
      [Cmd.GetFrameLatencyWaitableObject, Cmd.WaitForSingleObjectEx 1000 true, Cmd.ReadSample] := by
  induction envs with
  | nil => intro s t ht; simp [run] at ht
  | cons e es ih =>
    intro s t ht
    simp only [run, List.mem_cons] at ht
    rcases ht with rfl | ht
    · exact iteration_starts_with_gate_wait s e
    · exact ih _ t ht

/-- Every iteration issues its 1000 ms gate wait before its `ReadSample`, so its
log entry carries the result of that wait; and it is logged as submitted exactly
when it reached the present. -/
theorem gateObs_iteration (s : State) (e : Env) :
    gateWaitResult e (ProcessAndRender s e).2 = some e.gate ∧
    acquiredAndSubmitted (ProcessAndRender s e).2 = completed (ProcessAndRender s e).2 := by
  obtain ⟨f, i, t11, t12, h⟩ := s
  obtain ⟨g, rd, cr, sh, o, b⟩ := e
  rcases rd with _ | _ | (_ | tex) <;> rcases t11 with _ | a <;> rcases cr with _ | cr <;>
    rcases o with _ | o <;>
    simp [ProcessAndRender, interop, convertAndPresent, acquireCmds, gateWaitResult,
      acquiredAndSubmitted, completed, isReadSample, isGateWait, isPresent, List.takeWhile,
      List.dropWhile]

/-- Every entry of the log of a run carries a gate-wait result. -/
theorem gateLog_has_wait (envs : List Env) :
    ∀ s : State, ∀ x ∈ gateLog s envs, ∃ r, x.1 = some r := by
  induction envs with
  | nil => intro s x hx; simp [gateLog] at hx
  | cons e es ih =>
    intro s x hx
    simp only [gateLog, List.mem_cons] at hx
    rcases hx with rfl | hx
    · exact ⟨e.gate, (gateObs_iteration s e).1⟩
    · exact ih _ x hx

/-- C10: the latency-gate wait is `WaitForSingleObjectEx` with a 1000 ms bound,
and its result is not looked at: two runs of one iteration that differ only in
whether the wait returned signaled or timed out both go on to `ReadSample`, make
the same calls and end in the same state. -/
theorem C10_gate_timeout_proceeds (s : State) (e : Env) :
    ProcessAndRender s { e with gate := WaitResult.WAIT_OBJECT_0 } =
      ProcessAndRender s { e with gate := WaitResult.WAIT_TIMEOUT } ∧
    (ProcessAndRender s { e with gate := WaitResult.WAIT_TIMEOUT }).2.take 3 =
      [Cmd.GetFrameLatencyWaitableObject, Cmd.WaitForSingleObjectEx 1000 true,
       Cmd.ReadSample] ∧
    (ProcessAndRender s { e with gate := WaitResult.WAIT_OBJECT_0 }).2.take 3 =
      [Cmd.GetFrameLatencyWaitableObject, Cmd.WaitForSingleObjectEx 1000 true,
       Cmd.ReadSample] := by
  refine ⟨?_, iteration_starts_with_gate_wait _ _, iteration_starts_with_gate_wait _ _⟩
  obtain ⟨f, i, t11, t12, h⟩ := s
  obtain ⟨g, rd, cr, sh, o, b⟩ := e
  rfl

end ZeroCopy
